import Mathlib

/-!
Shallow embedding of `src/src/Materials/Textures/babylon.cubeTexture.ts`
(the `CubeTexture` class of Babylon.js).

The class is stateful JavaScript; we embed it as pure functions from an
explicit descriptor state (plus a scene environment) to a new state together
with a trace of the externally observable calls (cache lookups, engine load
calls, callback scheduling).  External collaborators that are not part of
`src/` (the engine loaders, `Tools.SetImmediate`, `SerializationHelper`,
`Matrix.RotationY`, the `BaseTexture` field defaults) are modelled from the
spec where a claim needs them; each such definition says so in its doc
comment.

JavaScript truthiness conventions used below: a `Nullable<T>` parameter is
`Option T` (`null`/`undefined` ↦ `none`); the string `""` is falsy; an array
is always truthy, even when empty.
-/

namespace CubeTex

/-- A three-component vector, as used for `boundingBoxSize`.  Components are
rationals standing for the JavaScript numbers; `Vector3.equals` compares the
components with `===`, which on these inputs is plain equality. -/
structure Vector3 where
  x : ℚ
  y : ℚ
  z : ℚ
deriving DecidableEq, Repr

/-- `Vector3.equals` from babylon.math: component-wise comparison. -/
def vector3Equals (a b : Vector3) : Bool :=
  a.x = b.x && a.y = b.y && a.z = b.z

/-- The slice of an engine `InternalTexture` handle that the class
observes: only its `isReady` flag is read (on the cache-hit path). -/
structure InternalTexture where
  isReady : Bool
deriving DecidableEq, Repr

/-- The slice of the owning `Scene` that the constructor and `delayLoad`
consult: `_getFromCache(url, noMipmap)` (a pure lookup keyed on the root url
and the mip policy), the `useDelayedTextureLoading` policy flag, and the
handle a fresh engine load call would return. -/
structure Scene where
  cache : String → Bool → Option InternalTexture
  useDelayedTextureLoading : Bool
  newTexture : InternalTexture

/-- `delayLoadState` values (`Engine.DELAYLOADSTATE_*`): `notDelayed` is the
inherited default (`NONE`), `notLoaded` marks a pending delayed load, and
`loaded` is set once `delayLoad` has run. -/
inductive DelayLoadState where
  | notDelayed
  | loading
  | loaded
  | notLoaded
deriving DecidableEq, Repr

/-- Externally observable calls issued by the constructor and by
`delayLoad`, in program order: the cache probe, the two engine load entry
points, and the two callback registrations of the cache-hit path.
`setImmediateOnLoad` stands for `Tools.SetImmediate(() => onLoad())` and
`addOnLoadedObservable` for `texture.onLoadedObservable.add(onLoad)`. -/
inductive Effect where
  | getFromCache (url : String) (noMipmap : Bool)
  | createPrefilteredCubeTexture (url : String)
  | createCubeTexture (url : String) (files : Option (List String))
  | setImmediateOnLoad
  | addOnLoadedObservable
deriving DecidableEq, Repr

/-- The descriptor state: the fields of `CubeTexture` that the claims
observe, after the constructor body ran.  `files` is `none` when
`this._files` was never assigned (the inert early-return descriptor);
`extensionsField` is `this._extensions`, which the constructor never
assigns. -/
structure CubeTextureState where
  name : String
  url : String
  noMipmap : Bool
  hasAlpha : Bool
  format : ℕ
  prefiltered : Bool
  isCube : Bool
  createPolynomials : Bool
  gammaSpace : Bool
  texture : Option InternalTexture
  files : Option (List String)
  extensionsField : Option (List String)
  delayLoadState : DelayLoadState
deriving Repr

/-- The constructor's parameters (after the `scene` argument).  `onLoad`
records only whether a success callback was supplied; `forcedExtension` is
`Option String` with both `none` and `some ""` falsy, mirroring the
`forcedExtension ? forcedExtension : …` test. -/
structure CtorArgs where
  rootUrl : String
  extensions : Option (List String)
  noMipmap : Bool
  files : Option (List String)
  onLoad : Bool
  format : ℕ
  prefiltered : Bool
  forcedExtension : Option String
  createPolynomials : Bool
deriving Repr

/-- Modelled from the spec: `Engine.TEXTUREFORMAT_RGBA`, the default colour
format identifier (an engine constant absent from `src/`); its numeric value
is irrelevant to every claim. -/
def TEXTUREFORMAT_RGBA : ℕ := 5

/-- Index of the last `.` in a string (`String.lastIndexOf(".")`), `none`
when there is no dot. -/
def lastDotIndex (s : String) : Option ℕ :=
  match s.toList.reverse.findIdx? (fun c => c = '.') with
  | Option.none => Option.none
  | Option.some j => Option.some (s.toList.length - 1 - j)

/-- `toLowerCase()` on the extension substring, character by character
(`String.toLower` itself is not kernel-reducible, so we map directly). -/
def lowerString (s : String) : String :=
  String.mk (s.toList.map Char.toLower)

/-- The extension derived from the root url alone:
`lastDot > -1 ? rootUrl.substring(lastDot).toLowerCase() : ""`. -/
def urlExtension (rootUrl : String) : String :=
  match lastDotIndex rootUrl with
  | Option.none => ""
  | Option.some i => lowerString (String.mk (rootUrl.toList.drop i))

/-- `const extension = forcedExtension ? forcedExtension : (lastDot > -1 ?
rootUrl.substring(lastDot).toLowerCase() : "")`.  A forced extension is used
verbatim (not lower-cased); `""` is falsy and falls through. -/
def resolvedExtension (rootUrl : String) (forced : Option String) : String :=
  match forced with
  | Option.some f => if f = "" then urlExtension rootUrl else f
  | Option.none => urlExtension rootUrl

/-- The six default directional suffixes of the legacy six-image path. -/
def defaultExtensions : List String :=
  ["_px.jpg", "_py.jpg", "_pz.jpg", "_nx.jpg", "_ny.jpg", "_nz.jpg"]

/-- The `if (!files) { … }` block of the constructor: when no explicit file
list is given, default the suffix list to the six directional suffixes
unless the extension classifies as `.env`/`.dds` or the caller supplied
suffixes, then concatenate the root url with each suffix in order. -/
def resolveFaceFiles (rootUrl : String) (extensions : Option (List String))
    (files : Option (List String)) (isDDS isEnv : Bool) : List String :=
  match files with
  | Option.some fs => fs
  | Option.none =>
    let exts : Option (List String) :=
      if ¬isEnv && ¬isDDS && extensions.isNone then
        Option.some defaultExtensions
      else
        extensions
    match exts with
    | Option.some es => es.map (fun e => rootUrl ++ e)
    | Option.none => []

/-- The constructor body.  `gammaSpaceInit` is the `gammaSpace` value
inherited from `super(scene)` (modelled from the spec: the `BaseTexture`
default is not in `src/`).  Returns the descriptor state together with the
trace of external calls, in program order. -/
def construct (gammaSpaceInit : Bool) (args : CtorArgs) (scene : Scene) :
    CubeTextureState × List Effect :=
  let s0 : CubeTextureState := {
    name := args.rootUrl
    url := args.rootUrl
    noMipmap := args.noMipmap
    hasAlpha := false
    format := args.format
    prefiltered := args.prefiltered
    isCube := true
    createPolynomials := args.createPolynomials
    gammaSpace := if args.prefiltered then false else gammaSpaceInit
    texture := Option.none
    files := Option.none
    extensionsField := Option.none
    delayLoadState := DelayLoadState.notDelayed }
  if args.rootUrl = "" ∧ args.files = Option.none then
    (s0, [])
  else
    let tex := scene.cache args.rootUrl args.noMipmap
    let extension := resolvedExtension args.rootUrl args.forcedExtension
    let isDDS : Bool := extension = ".dds"
    let isEnv : Bool := extension = ".env"
    let files := resolveFaceFiles args.rootUrl args.extensions args.files isDDS isEnv
    let s1 := { s0 with texture := tex, files := Option.some files }
    let probe := Effect.getFromCache args.rootUrl args.noMipmap
    match tex with
    | Option.none =>
      let prefilteredLocal : Bool := if ¬isDDS then false else args.prefiltered
      if ¬scene.useDelayedTextureLoading then
        if prefilteredLocal then
          ({ s1 with texture := Option.some scene.newTexture },
            [probe, Effect.createPrefilteredCubeTexture args.rootUrl])
        else
          ({ s1 with texture := Option.some scene.newTexture },
            [probe, Effect.createCubeTexture args.rootUrl (Option.some files)])
      else
        ({ s1 with delayLoadState := DelayLoadState.notLoaded }, [probe])
    | Option.some t =>
      if args.onLoad then
        if t.isReady then
          (s1, [probe, Effect.setImmediateOnLoad])
        else
          (s1, [probe, Effect.addOnLoadedObservable])
      else
        (s1, [probe])

/-- `delayLoad()`: a no-op unless `delayLoadState` is exactly `notLoaded`
and `getScene()` returns a scene; otherwise it marks the state `loaded`,
re-probes the cache, and on a miss issues exactly one load call chosen by
the stored `_prefiltered` flag. -/
def delayLoad (s : CubeTextureState) (scene : Option Scene) :
    CubeTextureState × List Effect :=
  if s.delayLoadState ≠ DelayLoadState.notLoaded then
    (s, [])
  else
    match scene with
    | Option.none => (s, [])
    | Option.some sc =>
      let s1 := { s with delayLoadState := DelayLoadState.loaded }
      let probe := Effect.getFromCache s.url s.noMipmap
      match sc.cache s.url s.noMipmap with
      | Option.some t => ({ s1 with texture := Option.some t }, [probe])
      | Option.none =>
        if s.prefiltered then
          ({ s1 with texture := Option.some sc.newTexture },
            [probe, Effect.createPrefilteredCubeTexture s.url])
        else
          ({ s1 with texture := Option.some sc.newTexture },
            [probe, Effect.createCubeTexture s.url s.files])

/-- The engine load calls within a trace (the cache probe and callback
registrations are not loads). -/
def isLoadCall : Effect → Bool
  | Effect.createPrefilteredCubeTexture _ => true
  | Effect.createCubeTexture _ _ => true
  | _ => false

/-- The sub-trace of engine load calls. -/
def loadEffects (l : List Effect) : List Effect :=
  l.filter isLoadCall

/-- A 4×4 matrix of real numbers (babylon's `Matrix` holds 16 floats,
row-major; we index by row and column). -/
def Matrix4 : Type := Fin 4 → Fin 4 → ℝ

/-- Modelled from the spec: `Matrix.RotationY` of babylon.math (absent from
`src/`), the pure Y-axis rotation matrix for an angle in radians. -/
noncomputable def rotationYMatrix (θ : ℝ) : Matrix4 := fun i j =>
  if i = 0 ∧ j = 0 then Real.cos θ
  else if i = 0 ∧ j = 2 then -Real.sin θ
  else if i = 2 ∧ j = 0 then Real.sin θ
  else if i = 2 ∧ j = 2 then Real.cos θ
  else if i = 1 ∧ j = 1 then 1
  else if i = 3 ∧ j = 3 then 1
  else 0

/-- The rotation/reflection-transform slice of the descriptor state:
`_rotationY` (defaulting to 0) and `_textureMatrix` (initialised to the
identity by the constructor). -/
structure TransformState where
  rotationYAngle : ℝ
  textureMatrix : Matrix4

/-- `getReflectionTextureMatrix()`. -/
def getReflectionTextureMatrix (s : TransformState) : Matrix4 :=
  s.textureMatrix

/-- `setReflectionTextureMatrix(value)`: unconditional overwrite of
`_textureMatrix`, no other side effect. -/
def setReflectionTextureMatrix (s : TransformState) (value : Matrix4) :
    TransformState :=
  { s with textureMatrix := value }

/-- The `rotationY` setter: store the angle, then
`setReflectionTextureMatrix(Matrix.RotationY(this._rotationY))`. -/
noncomputable def setRotationY (s : TransformState) (value : ℝ) :
    TransformState :=
  let s1 := { s with rotationYAngle := value }
  setReflectionTextureMatrix s1 (rotationYMatrix s1.rotationYAngle)

/-- The `rotationY` getter. -/
def getRotationY (s : TransformState) : ℝ :=
  s.rotationYAngle

/-- The local-correction slice of the descriptor state: `_boundingBoxSize`
starts out undefined (`none`). -/
structure BoundingBoxState where
  boundingBoxSize : Option Vector3
deriving DecidableEq, Repr

/-- The `boundingBoxSize` setter.  Returns the new state together with a
flag recording whether `scene.markAllMaterialsAsDirty` was invoked;
`sceneAvailable` is whether `getScene()` returns a scene.  The guard
`if (this._boundingBoxSize && this._boundingBoxSize.equals(value)) return;`
only fires when a size was previously stored. -/
def setBoundingBoxSize (s : BoundingBoxState) (sceneAvailable : Bool)
    (value : Vector3) : BoundingBoxState × Bool :=
  match s.boundingBoxSize with
  | Option.some cur =>
    if vector3Equals cur value then
      (s, false)
    else
      ({ boundingBoxSize := Option.some value }, sceneAvailable)
  | Option.none =>
    ({ boundingBoxSize := Option.some value }, sceneAvailable)

/-- The constructor arguments `clone()` passes to its factory:
`new CubeTexture(this.url, scene, this._extensions, this._noMipmap,
this._files)`, all remaining parameters at their defaults. -/
def cloneArgs (s : CubeTextureState) : CtorArgs :=
  { rootUrl := s.url
    extensions := s.extensionsField
    noMipmap := s.noMipmap
    files := s.files
    onLoad := false
    format := TEXTUREFORMAT_RGBA
    prefiltered := false
    forcedExtension := Option.none
    createPolynomials := false }

/-- Result of `clone()`: either the same instance (no scene available) or a
newly constructed descriptor together with the construction trace. -/
inductive CloneResult where
  | same
  | cloned (s : CubeTextureState) (effects : List Effect)
deriving Repr

/-- The descriptor state held by a `CloneResult`, `none` for `same`. -/
def cloneStateOf : CloneResult → Option CubeTextureState
  | CloneResult.same => Option.none
  | CloneResult.cloned s _ => Option.some s

/-- `clone()`.  Modelled from the spec for the part outside `src/`:
`SerializationHelper.Clone(creationFunction, source)` runs the factory and
then copies every annotated field onto the result; the only serialization
annotation in the source file is on `_rotationY`, which lives in the
separate `TransformState`, so no field of `CubeTextureState` is
additionally copied here.  The factory returns `this` when `getScene()` is
unavailable, else constructs via `cloneArgs`. -/
def clone (gammaSpaceInit : Bool) (s : CubeTextureState)
    (scene : Option Scene) : CloneResult :=
  match scene with
  | Option.none => CloneResult.same
  | Option.some sc =>
    let r := construct gammaSpaceInit (cloneArgs s) sc
    CloneResult.cloned r.1 r.2

/-! Concrete fixtures used by counterexamples and witnesses. -/

/-- A scene with an empty cache and immediate loading. -/
def sceneNoDelay : Scene :=
  { cache := fun _ _ => Option.none
    useDelayedTextureLoading := false
    newTexture := { isReady := false } }

/-- A scene with an empty cache and `useDelayedTextureLoading` on. -/
def sceneDelayed : Scene :=
  { cache := fun _ _ => Option.none
    useDelayedTextureLoading := true
    newTexture := { isReady := false } }

/-- A scene whose cache always hits with an already-ready texture. -/
def sceneHitReady : Scene :=
  { cache := fun _ _ => Option.some { isReady := true }
    useDelayedTextureLoading := false
    newTexture := { isReady := false } }

/-- Constructor arguments with every parameter at its default. -/
def baseArgs : CtorArgs :=
  { rootUrl := ""
    extensions := Option.none
    noMipmap := false
    files := Option.none
    onLoad := false
    format := TEXTUREFORMAT_RGBA
    prefiltered := false
    forcedExtension := Option.none
    createPolynomials := false }

/-- `CreateFromPrefilteredData("env.env", scene)`: root `"env.env"`,
requested prefiltered, polynomial generation on. -/
def envPrefilteredArgs : CtorArgs :=
  { baseArgs with rootUrl := "env.env", prefiltered := true, createPolynomials := true }

/-- A legacy six-image construction: root `"room"`, everything defaulted. -/
def roomArgs : CtorArgs :=
  { baseArgs with rootUrl := "room" }

/-- Root `"a.dds"` with a user-supplied one-element suffix list. -/
def ddsSuffixArgs : CtorArgs :=
  { baseArgs with rootUrl := "a.dds", extensions := Option.some ["_x"] }

/-- `roomArgs` with a success callback supplied. -/
def roomOnLoadArgs : CtorArgs :=
  { roomArgs with onLoad := true }

/-- The descriptor produced by the `"env.env"` prefiltered construction. -/
def envState : CubeTextureState :=
  (construct true envPrefilteredArgs sceneNoDelay).1

/-- The pending descriptor produced by constructing `"room"` against a
delayed-loading scene with an empty cache. -/
def roomPendingState : CubeTextureState :=
  (construct true roomArgs sceneDelayed).1

/-! Helper lemmas shared by several claims. -/

/-- The stored `_prefiltered` field always holds the requested value: no
branch of the constructor reassigns it. -/
theorem construct_fst_prefiltered (g : Bool) (args : CtorArgs) (scene : Scene) :
    (construct g args scene).1.prefiltered = args.prefiltered := by
  unfold construct
  dsimp only
  repeat' split
  all_goals rfl

/-- `this.url` is always the root url. -/
theorem construct_fst_url (g : Bool) (args : CtorArgs) (scene : Scene) :
    (construct g args scene).1.url = args.rootUrl := by
  unfold construct
  dsimp only
  repeat' split
  all_goals rfl

/-- `this._noMipmap` is always the `noMipmap` argument. -/
theorem construct_fst_noMipmap (g : Bool) (args : CtorArgs) (scene : Scene) :
    (construct g args scene).1.noMipmap = args.noMipmap := by
  unfold construct
  dsimp only
  repeat' split
  all_goals rfl

/-- Outside the early return, `this._files` is the resolved face list. -/
theorem construct_files_eq (g : Bool) (args : CtorArgs) (scene : Scene)
    (h : ¬(args.rootUrl = "" ∧ args.files = Option.none)) :
    (construct g args scene).1.files =
      Option.some (resolveFaceFiles args.rootUrl args.extensions args.files
        (resolvedExtension args.rootUrl args.forcedExtension = ".dds")
        (resolvedExtension args.rootUrl args.forcedExtension = ".env")) := by
  unfold construct
  dsimp only
  rw [if_neg h]
  repeat' split
  all_goals rfl

/-- An explicitly supplied file list is stored verbatim. -/
theorem construct_files_verbatim (g : Bool) (args : CtorArgs) (scene : Scene)
    (fs : List String) (hfs : args.files = Option.some fs) :
    (construct g args scene).1.files = Option.some fs := by
  have h : ¬(args.rootUrl = "" ∧ args.files = Option.none) := by simp [hfs]
  rw [construct_files_eq g args scene h]
  simp [resolveFaceFiles, hfs]

/-- When the resolved extension is not `.dds`, the constructor never issues
a prefiltered-container load (the local downgrade `prefiltered = false`). -/
theorem construct_no_prefiltered_load (g : Bool) (args : CtorArgs) (scene : Scene)
    (h : resolvedExtension args.rootUrl args.forcedExtension ≠ ".dds") :
    ∀ u, Effect.createPrefilteredCubeTexture u ∉ (construct g args scene).2 := by
  intro u
  unfold construct
  dsimp only
  repeat' split
  all_goals simp_all

/-- `delayLoad` is a no-op whenever the state is not `notLoaded`. -/
theorem delayLoad_noop_of_not_pending (s : CubeTextureState) (os : Option Scene)
    (h : s.delayLoadState ≠ DelayLoadState.notLoaded) :
    delayLoad s os = (s, []) := by
  unfold delayLoad
  rw [if_pos h]

/-- `delayLoad` is a no-op when `getScene()` returns nothing. -/
theorem delayLoad_noop_no_scene (s : CubeTextureState) :
    delayLoad s Option.none = (s, []) := by
  unfold delayLoad
  split
  · rfl
  · rfl

/-- The behaviour of `delayLoad` on a pending descriptor with a scene:
state goes to `loaded`, the cache is re-probed, and the load trace is empty
on a hit and a single flag-selected load call on a miss. -/
theorem delayLoad_pending (s : CubeTextureState) (sc : Scene)
    (h : s.delayLoadState = DelayLoadState.notLoaded) :
    (delayLoad s (Option.some sc)).1.delayLoadState = DelayLoadState.loaded ∧
    Effect.getFromCache s.url s.noMipmap ∈ (delayLoad s (Option.some sc)).2 ∧
    (∀ t, sc.cache s.url s.noMipmap = Option.some t →
      loadEffects (delayLoad s (Option.some sc)).2 = []) ∧
    (sc.cache s.url s.noMipmap = Option.none →
      loadEffects (delayLoad s (Option.some sc)).2 =
        [if s.prefiltered then Effect.createPrefilteredCubeTexture s.url
         else Effect.createCubeTexture s.url s.files]) := by
  unfold delayLoad
  rw [if_neg (by simp [h])]
  dsimp only
  refine ⟨?_, ?_, ?_, ?_⟩
  · split <;> (try split) <;> rfl
  · split <;> (try split) <;> simp [loadEffects]
  · intro t ht
    rw [ht] at *
    split <;> simp_all [loadEffects, isLoadCall]
  · intro hmiss
    split
    · simp_all
    · split <;> simp_all [loadEffects, isLoadCall]

/-- `vector3Equals` is plain equality on the rational model. -/
theorem vector3Equals_iff (a b : Vector3) : vector3Equals a b = true ↔ a = b := by
  cases a
  cases b
  simp [vector3Equals]
  tauto

/-! Claim theorems. -/

/-- C1, counterexample to the claim as stated: `"env.env"` resolves to the
non-container extension `.env`, the caller requests prefiltered treatment,
and the stored `_prefiltered` flag after construction is `true`, not the
forced `false` the claim asserts. -/
theorem stored_prefiltered_counterexample :
    resolvedExtension envPrefilteredArgs.rootUrl envPrefilteredArgs.forcedExtension ≠ ".dds" ∧
    envPrefilteredArgs.prefiltered = true ∧
    (construct true envPrefilteredArgs sceneNoDelay).1.prefiltered = true := by
  decide

/-- C1 (amended): the stored `_prefiltered` flag always equals the value the
caller requested, for every resolved extension; the non-`.dds` downgrade
applies only to the local variable selecting the immediate-load path, so
for a non-`.dds` resolved extension the constructor never issues a
prefiltered-container load, but the stored flag is not reset. -/
theorem stored_prefiltered_flag_behavior (g : Bool) (args : CtorArgs) (scene : Scene) :
    (construct g args scene).1.prefiltered = args.prefiltered ∧
    (resolvedExtension args.rootUrl args.forcedExtension ≠ ".dds" →
      ∀ u, Effect.createPrefilteredCubeTexture u ∉ (construct g args scene).2) :=
  ⟨construct_fst_prefiltered g args scene,
   fun h u => construct_no_prefiltered_load g args scene h u⟩

/-- Witness for the amended C1 theorem at the `"env.env"` construction. -/
theorem stored_prefiltered_flag_behavior_witness :
    (construct true envPrefilteredArgs sceneNoDelay).1.prefiltered =
      envPrefilteredArgs.prefiltered ∧
    Effect.createPrefilteredCubeTexture "env.env" ∉
      (construct true envPrefilteredArgs sceneNoDelay).2 :=
  ⟨(stored_prefiltered_flag_behavior true envPrefilteredArgs sceneNoDelay).1,
   (stored_prefiltered_flag_behavior true envPrefilteredArgs sceneNoDelay).2
     (by decide) "env.env"⟩

/-- C2: `delayLoad` is a no-op unless the state is exactly `notLoaded` and a
scene is available; on a valid trigger the state becomes `loaded`, the
cache is re-probed, exactly one load call — chosen by the stored
`_prefiltered` flag — is issued iff the re-probe misses, and any subsequent
call is a no-op. -/
theorem delayLoad_state_machine (s : CubeTextureState) (sc : Scene) :
    (∀ os, s.delayLoadState ≠ DelayLoadState.notLoaded → delayLoad s os = (s, [])) ∧
    delayLoad s Option.none = (s, []) ∧
    (s.delayLoadState = DelayLoadState.notLoaded →
      (delayLoad s (Option.some sc)).1.delayLoadState = DelayLoadState.loaded ∧
      Effect.getFromCache s.url s.noMipmap ∈ (delayLoad s (Option.some sc)).2 ∧
      (∀ t, sc.cache s.url s.noMipmap = Option.some t →
        loadEffects (delayLoad s (Option.some sc)).2 = []) ∧
      (sc.cache s.url s.noMipmap = Option.none →
        loadEffects (delayLoad s (Option.some sc)).2 =
          [if s.prefiltered then Effect.createPrefilteredCubeTexture s.url
           else Effect.createCubeTexture s.url s.files]) ∧
      (∀ os2, delayLoad (delayLoad s (Option.some sc)).1 os2 =
        ((delayLoad s (Option.some sc)).1, []))) := by
  refine ⟨fun os h => delayLoad_noop_of_not_pending s os h,
    delayLoad_noop_no_scene s, fun h => ?_⟩
  have hp := delayLoad_pending s sc h
  refine ⟨hp.1, hp.2.1, hp.2.2.1, hp.2.2.2, fun os2 => ?_⟩
  exact delayLoad_noop_of_not_pending _ os2 (by rw [hp.1]; decide)

/-- Witness for C2: the `"room"` descriptor constructed against a
delayed-loading scene is pending; one `delayLoad` against an empty-cache
scene loads it with exactly one six-image load call, and a second
`delayLoad` is a no-op. -/
theorem delayLoad_state_machine_witness :
    roomPendingState.delayLoadState = DelayLoadState.notLoaded ∧
    (delayLoad roomPendingState (Option.some sceneNoDelay)).1.delayLoadState =
      DelayLoadState.loaded ∧
    loadEffects (delayLoad roomPendingState (Option.some sceneNoDelay)).2 =
      [Effect.createCubeTexture "room" (Option.some
        ["room_px.jpg", "room_py.jpg", "room_pz.jpg",
         "room_nx.jpg", "room_ny.jpg", "room_nz.jpg"])] ∧
    delayLoad (delayLoad roomPendingState (Option.some sceneNoDelay)).1
        (Option.some sceneNoDelay) =
      ((delayLoad roomPendingState (Option.some sceneNoDelay)).1, []) := by
  have h := (delayLoad_state_machine roomPendingState sceneNoDelay).2.2 (by decide)
  refine ⟨by decide, h.1, ?_, h.2.2.2.2 (Option.some sceneNoDelay)⟩
  have h4 := h.2.2.2.1 rfl
  rw [h4]
  decide

/-- C3, counterexample to the claim as stated: with root `"a.dds"` (a
container extension) and a user-supplied one-element suffix list, the
resolved face list is `["a.dds_x"]` — not empty, and not of length 6. -/
theorem face_list_counterexample :
    resolvedExtension ddsSuffixArgs.rootUrl ddsSuffixArgs.forcedExtension = ".dds" ∧
    (construct true ddsSuffixArgs sceneNoDelay).1.files = Option.some ["a.dds_x"] := by
  decide

/-- C3 (amended): with no explicit file list, the face list is the root
concatenated with the six default directional suffixes (exactly 6 entries,
fixed order) when the resolved extension is neither `.dds` nor `.env` and
no suffix list was supplied; it is the root concatenated with each
user-supplied suffix in its given order — whatever the extension, with
length that of the suffix list; and it is empty only for `.dds`/`.env`
without a suffix list.  An explicit file list is stored verbatim. -/
theorem face_list_resolution (g : Bool) (args : CtorArgs) (scene : Scene)
    (hroot : args.rootUrl ≠ "") :
    (args.files = Option.none → args.extensions = Option.none →
      resolvedExtension args.rootUrl args.forcedExtension ≠ ".dds" →
      resolvedExtension args.rootUrl args.forcedExtension ≠ ".env" →
      (construct g args scene).1.files =
        Option.some (defaultExtensions.map (fun e => args.rootUrl ++ e)) ∧
      (defaultExtensions.map (fun e => args.rootUrl ++ e)).length = 6) ∧
    (∀ es, args.files = Option.none → args.extensions = Option.some es →
      (construct g args scene).1.files =
        Option.some (es.map (fun e => args.rootUrl ++ e))) ∧
    (args.files = Option.none → args.extensions = Option.none →
      (resolvedExtension args.rootUrl args.forcedExtension = ".dds" ∨
       resolvedExtension args.rootUrl args.forcedExtension = ".env") →
      (construct g args scene).1.files = Option.some []) ∧
    (∀ fs, args.files = Option.some fs →
      (construct g args scene).1.files = Option.some fs) := by
  have hne : ¬(args.rootUrl = "" ∧ args.files = Option.none) := fun hc => hroot hc.1
  refine ⟨fun hf he hd hv => ?_, fun es hf he => ?_, fun hf he hor => ?_,
    fun fs hfs => construct_files_verbatim g args scene fs hfs⟩
  · rw [construct_files_eq g args scene hne]
    refine ⟨?_, by simp [defaultExtensions]⟩
    simp [resolveFaceFiles, hf, he, hd, hv]
  · rw [construct_files_eq g args scene hne]
    simp [resolveFaceFiles, hf, he]
  · rw [construct_files_eq g args scene hne]
    rcases hor with hd | hv
    · simp [resolveFaceFiles, hf, he, hd]
    · simp [resolveFaceFiles, hf, he, hv]

/-- Witness for the amended C3 theorem: the `"room"` construction resolves
the six default directional face names in order. -/
theorem face_list_resolution_witness :
    (construct true roomArgs sceneNoDelay).1.files =
      Option.some ["room_px.jpg", "room_py.jpg", "room_pz.jpg",
        "room_nx.jpg", "room_ny.jpg", "room_nz.jpg"] := by
  have h := ((face_list_resolution true roomArgs sceneNoDelay (by decide)).1
    rfl rfl (by decide) (by decide)).1
  rw [h]
  decide

/-- C4, counterexample to the claim as stated: cloning the `"env.env"`
descriptor constructed with `prefiltered = true` yields a descriptor whose
prefiltered flag is `false` — the clone factory does not pass the flag and
no serialization annotation copies it. -/
theorem clone_counterexample :
    envState.prefiltered = true ∧
    envState.url = "env.env" ∧
    (cloneStateOf (clone true envState (Option.some sceneNoDelay))).map
      CubeTextureState.prefiltered = Option.some false := by
  decide

/-- C4 (amended): with no scene, `clone()` returns the same instance; with a
scene it returns a descriptor constructed with the same root identifier,
suffix list, mip policy, and explicit face list — the explicit face list
(in particular the empty one of a container descriptor) is reproduced
verbatim — but with the prefiltered flag `false` rather than the
original's. -/
theorem clone_behavior (g : Bool) (s : CubeTextureState) (sc : Scene) :
    clone g s Option.none = CloneResult.same ∧
    clone g s (Option.some sc) =
      CloneResult.cloned (construct g (cloneArgs s) sc).1
        (construct g (cloneArgs s) sc).2 ∧
    (construct g (cloneArgs s) sc).1.url = s.url ∧
    (construct g (cloneArgs s) sc).1.noMipmap = s.noMipmap ∧
    (construct g (cloneArgs s) sc).1.prefiltered = false ∧
    (∀ fs, s.files = Option.some fs →
      (construct g (cloneArgs s) sc).1.files = Option.some fs) := by
  refine ⟨rfl, rfl, construct_fst_url g (cloneArgs s) sc,
    construct_fst_noMipmap g (cloneArgs s) sc,
    construct_fst_prefiltered g (cloneArgs s) sc,
    fun fs hfs => construct_files_verbatim g (cloneArgs s) sc fs hfs⟩

/-- Witness for the amended C4 theorem at the `"env.env"` descriptor. -/
theorem clone_behavior_witness :
    clone true envState Option.none = CloneResult.same ∧
    (construct true (cloneArgs envState) sceneNoDelay).1.prefiltered = false ∧
    (construct true (cloneArgs envState) sceneNoDelay).1.files = Option.some [] :=
  ⟨(clone_behavior true envState sceneNoDelay).1,
   (clone_behavior true envState sceneNoDelay).2.2.2.2.1,
   (clone_behavior true envState sceneNoDelay).2.2.2.2.2 [] (by decide)⟩

/-- C5: setting the rotation angle then reading the reflection transform
yields exactly the pure Y-axis rotation matrix for that angle, and a
subsequent `setReflectionTextureMatrix(M)` makes the getter return exactly
`M`, discarding the derived rotation matrix. -/
theorem rotation_then_matrix_overwrite (s : TransformState) (θ : ℝ) (M : Matrix4) :
    getReflectionTextureMatrix (setRotationY s θ) = rotationYMatrix θ ∧
    getReflectionTextureMatrix
      (setReflectionTextureMatrix (setRotationY s θ) M) = M :=
  ⟨rfl, rfl⟩

/-- C6: calling the `boundingBoxSize` setter twice with component-wise equal
vectors signals `markAllMaterialsAsDirty` at most once — the second call
emits no signal and leaves the stored extent unchanged. -/
theorem boundingBoxSize_dirty_at_most_once (s : BoundingBoxState) (a1 a2 : Bool)
    (v w : Vector3) (hvw : vector3Equals v w = true) :
    (setBoundingBoxSize (setBoundingBoxSize s a1 v).1 a2 w).2 = false ∧
    (setBoundingBoxSize (setBoundingBoxSize s a1 v).1 a2 w).1 =
      (setBoundingBoxSize s a1 v).1 := by
  have hv : v = w := (vector3Equals_iff v w).1 hvw
  subst hv
  unfold setBoundingBoxSize
  cases hs : s.boundingBoxSize with
  | none =>
    simp [(vector3Equals_iff v v).2 rfl]
  | some cur =>
    by_cases hc : vector3Equals cur v = true
    · simp [hs, hc]
    · simp [hs, hc, (vector3Equals_iff v v).2 rfl]

/-- Witness for C6: starting from an unset extent, two calls with the vector
`(1, 2, 3)` signal exactly once. -/
theorem boundingBoxSize_dirty_witness :
    (setBoundingBoxSize
      (setBoundingBoxSize { boundingBoxSize := Option.none } true
        { x := 1, y := 2, z := 3 }).1 true { x := 1, y := 2, z := 3 }).2 = false ∧
    (setBoundingBoxSize { boundingBoxSize := Option.none } true
      { x := 1, y := 2, z := 3 }).2 = true :=
  ⟨(boundingBoxSize_dirty_at_most_once { boundingBoxSize := Option.none } true true
      { x := 1, y := 2, z := 3 } { x := 1, y := 2, z := 3 } (by decide)).1,
   by decide⟩

/-- C7: on a cache hit at construction with a success callback supplied, no
load call is issued; if the cached handle is ready the callback is handed to
the deferred scheduler (`Tools.SetImmediate`, never run inline), otherwise
it is registered on the handle's loaded-observable. -/
theorem cache_hit_callback (g : Bool) (args : CtorArgs) (scene : Scene)
    (t : InternalTexture)
    (hhit : scene.cache args.rootUrl args.noMipmap = Option.some t)
    (hcb : args.onLoad = true)
    (hne : ¬(args.rootUrl = "" ∧ args.files = Option.none)) :
    loadEffects (construct g args scene).2 = [] ∧
    (t.isReady = true → (construct g args scene).2 =
      [Effect.getFromCache args.rootUrl args.noMipmap, Effect.setImmediateOnLoad]) ∧
    (t.isReady = false → (construct g args scene).2 =
      [Effect.getFromCache args.rootUrl args.noMipmap, Effect.addOnLoadedObservable]) := by
  unfold construct
  dsimp only
  rw [if_neg hne, hhit]
  dsimp only
  rw [hcb]
  cases ht : t.isReady <;> simp [ht, loadEffects, isLoadCall]

/-- Witness for C7 at a ready cache hit for `"room"`. -/
theorem cache_hit_callback_witness :
    loadEffects (construct true roomOnLoadArgs sceneHitReady).2 = [] ∧
    (construct true roomOnLoadArgs sceneHitReady).2 =
      [Effect.getFromCache "room" false, Effect.setImmediateOnLoad] := by
  have h := cache_hit_callback true roomOnLoadArgs sceneHitReady
    { isReady := true } rfl rfl (by decide)
  exact ⟨h.1, h.2.1 rfl⟩

/-- C8: with neither a root identifier nor an explicit file list the
constructor returns an inert descriptor: no external call at all (hence no
cache lookup and no load), no face list, no backing texture, and the
not-delayed load state. -/
theorem inert_descriptor (g : Bool) (args : CtorArgs) (scene : Scene)
    (h1 : args.rootUrl = "") (h2 : args.files = Option.none) :
    (construct g args scene).2 = [] ∧
    (construct g args scene).1.files = Option.none ∧
    (construct g args scene).1.texture = Option.none ∧
    (construct g args scene).1.delayLoadState = DelayLoadState.notDelayed := by
  unfold construct
  dsimp only
  rw [if_pos ⟨h1, h2⟩]
  exact ⟨rfl, rfl, rfl, rfl⟩

/-- Witness for C8 at the all-defaults construction. -/
theorem inert_descriptor_witness :
    (construct true baseArgs sceneNoDelay).2 = [] ∧
    (construct true baseArgs sceneNoDelay).1.files = Option.none ∧
    (construct true baseArgs sceneNoDelay).1.texture = Option.none ∧
    (construct true baseArgs sceneNoDelay).1.delayLoadState =
      DelayLoadState.notDelayed :=
  inert_descriptor true baseArgs sceneNoDelay rfl rfl

/-- C9: `gammaSpace` after construction is `false` whenever prefiltered
treatment was requested — for every root, extension, scene and cache state,
including the inert early-return descriptor, so the assignment precedes
extension classification and the cache lookup — and stays at the inherited
default otherwise. -/
theorem gammaSpace_forced_when_prefiltered (g : Bool) (args : CtorArgs) (scene : Scene) :
    (construct g args scene).1.gammaSpace = (if args.prefiltered then false else g) := by
  unfold construct
  dsimp only
  repeat' split
  all_goals rfl

/-- C10: overwriting the reflection transform with an arbitrary matrix does
not touch the stored rotation angle: after `rotationY := θ` then
`setReflectionTextureMatrix(M)`, the angle getter still reports `θ` while
the transform getter reports `M`. -/
theorem rotation_angle_stale_after_overwrite (s : TransformState) (θ : ℝ) (M : Matrix4) :
    getRotationY (setReflectionTextureMatrix (setRotationY s θ) M) = θ ∧
    getReflectionTextureMatrix
      (setReflectionTextureMatrix (setRotationY s θ) M) = M :=
  ⟨rfl, rfl⟩

end CubeTex
